import Mathlib

/-!
Verification development for the forward renderer of the fizzle engine
(`forward_renderer.go`).  The Go source is embedded shallowly:

* float32 scalars are modelled as rationals (`ℚ`); the only transcendental
  operation the source uses is the square root inside vector normalization,
  modelled by the computable `ratSqrt` below (exact on perfect squares,
  a stand-in for the approximate float32 square root elsewhere);
* the mutable graphics device (`gfx`, the external graphicsprovider) is
  modelled as an explicit state record carrying the device registers the
  code touches plus an append-only call trace, so that resource and
  ordering properties can be stated over the trace;
* pointer-typed optional fields (`*ShadowMap`, `*Light`) become `Option`;
* the Go methods become pure functions threading the device state.
-/

namespace Fizzle

/-- Square root on rationals: computable stand-in for the float32 `sqrt`
used by the vector math library.  Exact on rationals whose numerator and
denominator are perfect squares (all inputs used by concrete claims);
approximate elsewhere, mirroring the approximate float32 result. -/
def ratSqrt (q : ℚ) : ℚ :=
  (Nat.sqrt q.num.toNat : ℚ) / (Nat.sqrt q.den : ℚ)

/-- 3-component vector (mgl32.Vec3). -/
structure Vec3 where
  x : ℚ
  y : ℚ
  z : ℚ
deriving DecidableEq, Repr

/-- 4-component vector (mgl32.Vec4). -/
structure Vec4 where
  x : ℚ
  y : ℚ
  z : ℚ
  w : ℚ
deriving DecidableEq, Repr

namespace Vec3

/-- Component-wise addition (mgl32.Vec3.Add). -/
def Add (v u : Vec3) : Vec3 := ⟨v.x + u.x, v.y + u.y, v.z + u.z⟩

/-- Component-wise subtraction (mgl32.Vec3.Sub). -/
def Sub (v u : Vec3) : Vec3 := ⟨v.x - u.x, v.y - u.y, v.z - u.z⟩

/-- Scalar multiplication (mgl32.Vec3.Mul). -/
def Mul (v : Vec3) (c : ℚ) : Vec3 := ⟨v.x * c, v.y * c, v.z * c⟩

/-- Dot product (mgl32.Vec3.Dot). -/
def Dot (v u : Vec3) : ℚ := v.x * u.x + v.y * u.y + v.z * u.z

/-- Cross product (mgl32.Vec3.Cross). -/
def Cross (v u : Vec3) : Vec3 :=
  ⟨v.y * u.z - v.z * u.y, v.z * u.x - v.x * u.z, v.x * u.y - v.y * u.x⟩

/-- Euclidean length (mgl32.Vec3.Len), with `ratSqrt` for float sqrt. -/
def Len (v : Vec3) : ℚ := ratSqrt (v.Dot v)

/-- Normalization (mgl32.Vec3.Normalize): multiply by the reciprocal of
the length, exactly as the library does. -/
def Normalize (v : Vec3) : Vec3 := v.Mul (1 / v.Len)

/-- The zero vector (Go zero value of mgl32.Vec3). -/
def zero : Vec3 := ⟨0, 0, 0⟩

end Vec3

/-- 4x4 matrix in column-major element order, exactly the layout of
mgl32.Mat4 (`aIJ` is the element at linear index 4*I+J, i.e. column I,
row J). -/
structure Mat4 where
  a00 : ℚ
  a01 : ℚ
  a02 : ℚ
  a03 : ℚ
  a10 : ℚ
  a11 : ℚ
  a12 : ℚ
  a13 : ℚ
  a20 : ℚ
  a21 : ℚ
  a22 : ℚ
  a23 : ℚ
  a30 : ℚ
  a31 : ℚ
  a32 : ℚ
  a33 : ℚ
deriving DecidableEq, Repr

/-- Identity matrix (mgl32.Ident4). -/
def Ident4 : Mat4 :=
  ⟨1, 0, 0, 0,
   0, 1, 0, 0,
   0, 0, 1, 0,
   0, 0, 0, 1⟩

/-- The all-zero matrix (Go zero value of mgl32.Mat4). -/
def Mat4zero : Mat4 :=
  ⟨0, 0, 0, 0,  0, 0, 0, 0,  0, 0, 0, 0,  0, 0, 0, 0⟩

namespace Mat4

/-- Matrix product (mgl32.Mat4.Mul4): entry at column c, row r of
`m.Mul4 n` is the dot product of row r of `m` with column c of `n`. -/
def Mul4 (m n : Mat4) : Mat4 :=
  ⟨m.a00 * n.a00 + m.a10 * n.a01 + m.a20 * n.a02 + m.a30 * n.a03,
   m.a01 * n.a00 + m.a11 * n.a01 + m.a21 * n.a02 + m.a31 * n.a03,
   m.a02 * n.a00 + m.a12 * n.a01 + m.a22 * n.a02 + m.a32 * n.a03,
   m.a03 * n.a00 + m.a13 * n.a01 + m.a23 * n.a02 + m.a33 * n.a03,
   m.a00 * n.a10 + m.a10 * n.a11 + m.a20 * n.a12 + m.a30 * n.a13,
   m.a01 * n.a10 + m.a11 * n.a11 + m.a21 * n.a12 + m.a31 * n.a13,
   m.a02 * n.a10 + m.a12 * n.a11 + m.a22 * n.a12 + m.a32 * n.a13,
   m.a03 * n.a10 + m.a13 * n.a11 + m.a23 * n.a12 + m.a33 * n.a13,
   m.a00 * n.a20 + m.a10 * n.a21 + m.a20 * n.a22 + m.a30 * n.a23,
   m.a01 * n.a20 + m.a11 * n.a21 + m.a21 * n.a22 + m.a31 * n.a23,
   m.a02 * n.a20 + m.a12 * n.a21 + m.a22 * n.a22 + m.a32 * n.a23,
   m.a03 * n.a20 + m.a13 * n.a21 + m.a23 * n.a22 + m.a33 * n.a23,
   m.a00 * n.a30 + m.a10 * n.a31 + m.a20 * n.a32 + m.a30 * n.a33,
   m.a01 * n.a30 + m.a11 * n.a31 + m.a21 * n.a32 + m.a31 * n.a33,
   m.a02 * n.a30 + m.a12 * n.a31 + m.a22 * n.a32 + m.a32 * n.a33,
   m.a03 * n.a30 + m.a13 * n.a31 + m.a23 * n.a32 + m.a33 * n.a33⟩

/-- Matrix-vector product (mgl32.Mat4.Mul4x1). -/
def Mul4x1 (m : Mat4) (v : Vec4) : Vec4 :=
  ⟨m.a00 * v.x + m.a10 * v.y + m.a20 * v.z + m.a30 * v.w,
   m.a01 * v.x + m.a11 * v.y + m.a21 * v.z + m.a31 * v.w,
   m.a02 * v.x + m.a12 * v.y + m.a22 * v.z + m.a32 * v.w,
   m.a03 * v.x + m.a13 * v.y + m.a23 * v.z + m.a33 * v.w⟩

end Mat4

/-- Translation matrix (mgl32.Translate3D). -/
def Translate3D (tx ty tz : ℚ) : Mat4 :=
  ⟨1, 0, 0, 0,
   0, 1, 0, 0,
   0, 0, 1, 0,
   tx, ty, tz, 1⟩

/-- Look-at view matrix (mgl32.LookAtV): forward, side and up basis
vectors from normalized cross products, composed with a translation by
the negated eye position. -/
def LookAtV (eye center up : Vec3) : Mat4 :=
  let f := (center.Sub eye).Normalize
  let s := (f.Cross up.Normalize).Normalize
  let u := s.Cross f
  let m : Mat4 :=
    ⟨s.x, u.x, -f.x, 0,
     s.y, u.y, -f.y, 0,
     s.z, u.z, -f.z, 0,
     0, 0, 0, 1⟩
  m.Mul4 (Translate3D (-eye.x) (-eye.y) (-eye.z))

/-- Off-axis frustum projection matrix (mgl32.Frustum). -/
def Frustum (left right bottom top nearVal farVal : ℚ) : Mat4 :=
  let rml := right - left
  let tmb := top - bottom
  let fmn := farVal - nearVal
  let A := (right + left) / rml
  let B := (top + bottom) / tmb
  let C := -(farVal + nearVal) / fmn
  let D := -(2 * farVal * nearVal) / fmn
  ⟨(2 * nearVal) / rml, 0, 0, 0,
   0, (2 * nearVal) / tmb, 0, 0,
   A, B, C, -1,
   0, 0, D, 0⟩

/-!
## Graphics device model

Modelled from the spec: the graphicsprovider package is not part of the
embedded source; the spec (section 6) describes it as an external device
capability set (texture/framebuffer creation, binds, parameters, state
toggles, clears, viewport, draws).  It is modelled as a state record of
the device registers this renderer touches, plus an append-only trace of
every call, so that resource-lifetime and ordering claims can be stated
over the trace.  Enum constants carry their standard OpenGL values.
-/

namespace graphics

/-- Modelled from the spec: OpenGL enum constant. -/
def TEXTURE0 : ℕ := 0x84C0

/-- Modelled from the spec: OpenGL enum constant. -/
def TEXTURE_2D : ℕ := 0x0DE1

/-- Modelled from the spec: OpenGL enum constant. -/
def DEPTH_COMPONENT32 : ℕ := 0x81A7

/-- Modelled from the spec: OpenGL enum constant. -/
def DEPTH_COMPONENT : ℕ := 0x1902

/-- Modelled from the spec: OpenGL enum constant. -/
def UNSIGNED_INT : ℕ := 0x1405

/-- Modelled from the spec: OpenGL enum constant. -/
def LINEAR : ℕ := 0x2601

/-- Modelled from the spec: OpenGL enum constant. -/
def TEXTURE_MAG_FILTER : ℕ := 0x2800

/-- Modelled from the spec: OpenGL enum constant. -/
def TEXTURE_MIN_FILTER : ℕ := 0x2801

/-- Modelled from the spec: OpenGL enum constant. -/
def TEXTURE_WRAP_S : ℕ := 0x2802

/-- Modelled from the spec: OpenGL enum constant. -/
def TEXTURE_WRAP_T : ℕ := 0x2803

/-- Modelled from the spec: OpenGL enum constant. -/
def TEXTURE_BORDER_COLOR : ℕ := 0x1004

/-- Modelled from the spec: OpenGL enum constant. -/
def CLAMP_TO_BORDER : ℕ := 0x812D

/-- Modelled from the spec: OpenGL enum constant. -/
def TEXTURE_COMPARE_MODE : ℕ := 0x884C

/-- Modelled from the spec: OpenGL enum constant. -/
def COMPARE_REF_TO_TEXTURE : ℕ := 0x884E

/-- Modelled from the spec: OpenGL enum constant. -/
def FRAMEBUFFER : ℕ := 0x8D40

/-- Modelled from the spec: OpenGL enum constant. -/
def DEPTH_ATTACHMENT : ℕ := 0x8D00

/-- Modelled from the spec: OpenGL enum constant. -/
def CULL_FACE : ℕ := 0x0B44

/-- Modelled from the spec: OpenGL enum constant. -/
def POLYGON_OFFSET_FILL : ℕ := 0x8037

/-- Modelled from the spec: OpenGL enum constant. -/
def FRONT : ℕ := 0x0404

/-- Modelled from the spec: OpenGL enum constant. -/
def BACK : ℕ := 0x0405

/-- Modelled from the spec: OpenGL enum constant. -/
def NONE : ℕ := 0

/-- Modelled from the spec: OpenGL enum constant. -/
def DEPTH_BUFFER_BIT : ℕ := 0x0100

/-- Modelled from the spec: OpenGL enum constant. -/
def TRIANGLES : ℕ := 0x0004

/-- Modelled from the spec: OpenGL enum constant. -/
def LINES : ℕ := 0x0001

end graphics

/-- Modelled from the spec: one call into the external graphics device,
with the arguments the renderer passes (the `nil` pixel-data argument of
TexImage2D is omitted as it is always nil here). -/
inductive GfxOp where
  | genTexture (id : ℕ)
  | deleteTexture (id : ℕ)
  | activeTexture (unit : ℕ)
  | bindTexture (target : ℕ) (id : ℕ)
  | texImage2D (target : ℕ) (level : ℤ) (internalFormat : ℕ)
      (width : ℤ) (height : ℤ) (border : ℤ) (format : ℕ) (dataType : ℕ)
  | texParameteri (target : ℕ) (pname : ℕ) (param : ℕ)
  | texParameterfv (target : ℕ) (pname : ℕ) (values : List ℚ)
  | genFramebuffer (id : ℕ)
  | bindFramebuffer (target : ℕ) (id : ℕ)
  | framebufferTexture2D (target : ℕ) (attachment : ℕ) (textarget : ℕ)
      (texId : ℕ) (level : ℤ)
  | drawBuffers (bufs : List ℕ)
  | readBuffer (src : ℕ)
  | enable (cap : ℕ)
  | disable (cap : ℕ)
  | cullFace (mode : ℕ)
  | polygonOffset (factor : ℚ) (units : ℚ)
  | clear (mask : ℕ)
  | viewport (x : ℤ) (y : ℤ) (w : ℤ) (h : ℤ)
  | draw (shader : ℕ) (mode : ℕ)
deriving DecidableEq, Repr

/-- Modelled from the spec: the mutable state of the external graphics
device, restricted to the registers this renderer reads back through its
observable behavior, plus the append-only call trace. -/
structure GfxState where
  nextTexture : ℕ := 1
  nextFramebuffer : ℕ := 1
  boundFramebuffer : ℕ := 0
  cullFaceMode : ℕ := graphics.BACK
  enabledCaps : List ℕ := []
  trace : List GfxOp := []
deriving DecidableEq, Repr

/-- Modelled from the spec: initial device state (nothing bound, GL
default back-face culling, no capabilities enabled, empty trace). -/
def GfxState.initial : GfxState := {}

namespace GfxState

/-- Modelled from the spec: allocate a fresh texture handle. -/
def GenTexture (g : GfxState) : ℕ × GfxState :=
  (g.nextTexture,
   { g with nextTexture := g.nextTexture + 1,
            trace := g.trace ++ [GfxOp.genTexture g.nextTexture] })

/-- Modelled from the spec: release a texture handle. -/
def DeleteTexture (g : GfxState) (id : ℕ) : GfxState :=
  { g with trace := g.trace ++ [GfxOp.deleteTexture id] }

/-- Modelled from the spec: select the active texture unit. -/
def ActiveTexture (g : GfxState) (unit : ℕ) : GfxState :=
  { g with trace := g.trace ++ [GfxOp.activeTexture unit] }

/-- Modelled from the spec: bind a texture to a target. -/
def BindTexture (g : GfxState) (target id : ℕ) : GfxState :=
  { g with trace := g.trace ++ [GfxOp.bindTexture target id] }

/-- Modelled from the spec: upload texture storage. -/
def TexImage2D (g : GfxState) (target : ℕ) (level : ℤ) (internalFormat : ℕ)
    (width height border : ℤ) (format dataType : ℕ) : GfxState :=
  { g with trace := g.trace ++
      [GfxOp.texImage2D target level internalFormat width height border format dataType] }

/-- Modelled from the spec: set an integer texture parameter. -/
def TexParameteri (g : GfxState) (target pname param : ℕ) : GfxState :=
  { g with trace := g.trace ++ [GfxOp.texParameteri target pname param] }

/-- Modelled from the spec: set a float-vector texture parameter. -/
def TexParameterfv (g : GfxState) (target pname : ℕ) (values : List ℚ) : GfxState :=
  { g with trace := g.trace ++ [GfxOp.texParameterfv target pname values] }

/-- Modelled from the spec: allocate a fresh framebuffer handle. -/
def GenFramebuffer (g : GfxState) : ℕ × GfxState :=
  (g.nextFramebuffer,
   { g with nextFramebuffer := g.nextFramebuffer + 1,
            trace := g.trace ++ [GfxOp.genFramebuffer g.nextFramebuffer] })

/-- Modelled from the spec: bind a framebuffer (id 0 unbinds). -/
def BindFramebuffer (g : GfxState) (target id : ℕ) : GfxState :=
  { g with boundFramebuffer := id,
           trace := g.trace ++ [GfxOp.bindFramebuffer target id] }

/-- Modelled from the spec: attach a texture level to the bound
framebuffer. -/
def FramebufferTexture2D (g : GfxState) (target attachment textarget texId : ℕ)
    (level : ℤ) : GfxState :=
  { g with trace := g.trace ++
      [GfxOp.framebufferTexture2D target attachment textarget texId level] }

/-- Modelled from the spec: select the draw buffers. -/
def DrawBuffers (g : GfxState) (bufs : List ℕ) : GfxState :=
  { g with trace := g.trace ++ [GfxOp.drawBuffers bufs] }

/-- Modelled from the spec: select the read buffer. -/
def ReadBuffer (g : GfxState) (src : ℕ) : GfxState :=
  { g with trace := g.trace ++ [GfxOp.readBuffer src] }

/-- Modelled from the spec: enable a device capability. -/
def Enable (g : GfxState) (cap : ℕ) : GfxState :=
  { g with enabledCaps := if cap ∈ g.enabledCaps then g.enabledCaps else cap :: g.enabledCaps,
           trace := g.trace ++ [GfxOp.enable cap] }

/-- Modelled from the spec: disable a device capability. -/
def Disable (g : GfxState) (cap : ℕ) : GfxState :=
  { g with enabledCaps := g.enabledCaps.filter (fun c => c ≠ cap),
           trace := g.trace ++ [GfxOp.disable cap] }

/-- Modelled from the spec: set the face-culling direction. -/
def CullFace (g : GfxState) (mode : ℕ) : GfxState :=
  { g with cullFaceMode := mode, trace := g.trace ++ [GfxOp.cullFace mode] }

/-- Modelled from the spec: set the polygon-offset bias parameters. -/
def PolygonOffset (g : GfxState) (factor units : ℚ) : GfxState :=
  { g with trace := g.trace ++ [GfxOp.polygonOffset factor units] }

/-- Modelled from the spec: clear the selected buffers. -/
def Clear (g : GfxState) (mask : ℕ) : GfxState :=
  { g with trace := g.trace ++ [GfxOp.clear mask] }

/-- Modelled from the spec: set the viewport rectangle. -/
def Viewport (g : GfxState) (x y w h : ℤ) : GfxState :=
  { g with trace := g.trace ++ [GfxOp.viewport x y w h] }

end GfxState

/-!
## Light / ShadowMap (forward_renderer.go lines 14-175)
-/

/-- Go `MaxForwardLights` from forward_renderer.go. -/
def MaxForwardLights : ℕ := 4

/-- Go `shadowBiasMat` from forward_renderer.go: fixed bias matrix written
column-major exactly as in the source. -/
def shadowBiasMat : Mat4 :=
  ⟨0.5, 0.0, 0.0, 0.0,
   0.0, 0.5, 0.0, 0.0,
   0.0, 0.0, 0.5, 0.0,
   0.5, 0.5, 0.5, 1.0⟩

/-- Go `ShadowMap` from forward_renderer.go: depth texture handle plus the
vectors and matrices needed to render the shadow map of the owning
light.  The Go texture handle (graphics.Texture) is a device handle,
modelled as ℕ. -/
structure ShadowMap where
  Texture : ℕ
  TextureSize : ℤ
  Direction : Vec3
  Near : ℚ
  Far : ℚ
  Up : Vec3
  Projection : Mat4
  View : Mat4
  ViewProjMatrix : Mat4
  BiasedMatrix : Mat4
deriving DecidableEq, Repr

/-- Go `NewShadowMap` from forward_renderer.go: a fresh zero-valued
ShadowMap with Up = {0,1,0} and identity Projection and View. -/
def NewShadowMap : ShadowMap :=
  { Texture := 0
    TextureSize := 0
    Direction := Vec3.zero
    Near := 0
    Far := 0
    Up := ⟨0, 1, 0⟩
    Projection := Ident4
    View := Ident4
    ViewProjMatrix := Mat4zero
    BiasedMatrix := Mat4zero }

/-- Go `ShadowMap.Destroy` from forward_renderer.go: deletes the texture
associated with the shadow map. -/
def ShadowMap.Destroy (shady : ShadowMap) (g : GfxState) : GfxState :=
  g.DeleteTexture shady.Texture

/-- Go `Light` from forward_renderer.go.  The nil-able `*ShadowMap` pointer
becomes an `Option`. -/
structure Light where
  Position : Vec3
  Direction : Vec3
  DiffuseColor : Vec4
  DiffuseIntensity : ℚ
  AmbientIntensity : ℚ
  Attenuation : ℚ
  ShadowMap : Option ShadowMap
deriving DecidableEq, Repr

/-- Go `NewLight` from forward_renderer.go: zero-valued light. -/
def NewLight : Light :=
  { Position := Vec3.zero
    Direction := Vec3.zero
    DiffuseColor := ⟨0, 0, 0, 0⟩
    DiffuseIntensity := 0
    AmbientIntensity := 0
    Attenuation := 0
    ShadowMap := none }

/-- Go `Light.CreateShadowMap` from forward_renderer.go: destroy any
previous shadow map, allocate a new one, set up the frustum projection
from the fixed half-extent factor 0.5, allocate and configure the depth
texture, and unbind.  Returns the updated light and device state. -/
def Light.CreateShadowMap (l : Light) (textureSize : ℤ) (near far : ℚ)
    (dir : Vec3) (g : GfxState) : Light × GfxState :=
  -- if there was already a shadow map, destroy it
  let g := match l.ShadowMap with
    | some old => old.Destroy g
    | none => g
  -- allocate a new structure and set up the projection
  let factor : ℚ := 0.5
  let shady := { NewShadowMap with
    Near := near
    Far := far
    Projection := Frustum (-factor) factor (-factor) factor near far
    TextureSize := textureSize
    Direction := dir }
  -- create the shadow map texture
  let (tex, g) := g.GenTexture
  let shady := { shady with Texture := tex }
  let g := g.ActiveTexture graphics.TEXTURE0
  let g := g.BindTexture graphics.TEXTURE_2D tex
  let g := g.TexImage2D graphics.TEXTURE_2D 0 graphics.DEPTH_COMPONENT32
      textureSize textureSize 0 graphics.DEPTH_COMPONENT graphics.UNSIGNED_INT
  let g := g.TexParameteri graphics.TEXTURE_2D graphics.TEXTURE_MAG_FILTER graphics.LINEAR
  let g := g.TexParameteri graphics.TEXTURE_2D graphics.TEXTURE_MIN_FILTER graphics.LINEAR
  let g := g.TexParameterfv graphics.TEXTURE_2D graphics.TEXTURE_BORDER_COLOR [1, 1, 1, 1]
  let g := g.TexParameteri graphics.TEXTURE_2D graphics.TEXTURE_WRAP_S graphics.CLAMP_TO_BORDER
  let g := g.TexParameteri graphics.TEXTURE_2D graphics.TEXTURE_WRAP_T graphics.CLAMP_TO_BORDER
  let g := g.TexParameteri graphics.TEXTURE_2D graphics.TEXTURE_COMPARE_MODE graphics.COMPARE_REF_TO_TEXTURE
  -- a safety unbind
  let g := g.BindTexture graphics.TEXTURE_2D 0
  ({ l with ShadowMap := some shady }, g)

/-- Go `Light.UpdateShadowMapData` from forward_renderer.go: no-op when the
light has no shadow map; otherwise recompute View (look-at toward
position + direction), ViewProjMatrix and BiasedMatrix. -/
def Light.UpdateShadowMapData (l : Light) : Light :=
  match l.ShadowMap with
  | none => l
  | some m =>
    -- construct a dummy target along the direction vector
    let target := l.Position.Add m.Direction
    let view := LookAtV l.Position target m.Up
    let viewProj := m.Projection.Mul4 view
    let biased := shadowBiasMat.Mul4 viewProj
    { l with ShadowMap := some { m with
        View := view
        ViewProjMatrix := viewProj
        BiasedMatrix := biased } }

/-!
## Scene tree (RenderableNode)

Modelled from the spec: the `Renderable` type and `bindAndDraw` live in
another file of the repository that is not part of the embedded source.
Per the spec's data model, a node carries a visibility flag, an
"is group" flag, an owned child list (insertion order = draw order) and
a drawable core holding a shader reference when a leaf; `bindAndDraw`
binds the chosen shader, invokes the external binder and issues exactly
one draw call with the given primitive topology.
-/

mutual

/-- Modelled from the spec: a scene-tree node (`Renderable`): visibility
flag, group flag, owned children in draw order, and the drawable core
reduced to its shader handle. -/
inductive Renderable where
  | mk (IsVisible : Bool) (IsGroup : Bool) (Children : RenderableList)
      (CoreShader : ℕ)

/-- Modelled from the spec: the `[]*Renderable` child list, as an
inductive list so that mutual structural recursion mirrors the Go
`for _, child := range r.Children` loop. -/
inductive RenderableList where
  | nil
  | cons (head : Renderable) (tail : RenderableList)

end

/-- Visibility flag of a node. -/
def Renderable.IsVisible : Renderable → Bool
  | .mk v _ _ _ => v

/-- Group flag of a node. -/
def Renderable.IsGroup : Renderable → Bool
  | .mk _ g _ _ => g

/-- Child list of a node. -/
def Renderable.Children : Renderable → RenderableList
  | .mk _ _ c _ => c

/-- Shader handle of the node's drawable core. -/
def Renderable.CoreShader : Renderable → ℕ
  | .mk _ _ _ s => s

/-- Modelled from the spec: `bindAndDraw` binds the chosen shader,
invokes the external binder for per-draw uniforms, and issues exactly
one draw call with the given topology; on the device model this appends
one draw record to the trace. -/
def bindAndDraw (r : Renderable) (shader : ℕ) (binder : ℕ)
    (perspective view : Mat4) (mode : ℕ) (g : GfxState) : GfxState :=
  let _ := r
  let _ := binder
  let _ := perspective
  let _ := view
  { g with trace := g.trace ++ [GfxOp.draw shader mode] }

/-!
## ForwardRenderer (forward_renderer.go lines 177-399)
-/

/-- Go `ForwardRenderer` from forward_renderer.go, restricted to the fields
the embedded operations read or write.  The window handle, UI manager,
resize callback and frame timestamp are external/time-dependent and
carry no claim-relevant state.  `ActiveLights` is the fixed-capacity
array of nil-able light pointers. -/
structure ForwardRenderer where
  ActiveLights : Fin 4 → Option Light
  width : ℤ := 0
  height : ℤ := 0
  shadowFBO : ℕ := 0
  currentShadowPassLight : Option Light := none

/-- Go `NewForwardRenderer` from forward_renderer.go (window handle
omitted): zero-valued renderer with an all-nil light array. -/
def NewForwardRenderer : ForwardRenderer :=
  { ActiveLights := fun _ => none }

/-- Go array indexing `fr.ActiveLights[i]` for a loop counter `i`
(always in bounds in the source, where the loop bound is the array
length). -/
def ForwardRenderer.lightAt (fr : ForwardRenderer) (i : ℕ) : Option Light :=
  if h : i < MaxForwardLights then fr.ActiveLights ⟨i, h⟩ else none

/-- The Go counting loop `for i := 0; i < MaxForwardLights; i++ { if p(i)
{ return i } }; return MaxForwardLights`, with the remaining iteration
count as fuel: `scanLoop p i fuel` returns the first index at or after
`i` where `p` holds, or `i + fuel` when none does. -/
def scanLoop (p : ℕ → Bool) : ℕ → ℕ → ℕ
  | i, 0 => i
  | i, fuel + 1 => if p i then i else scanLoop p (i + 1) fuel

/-- Go `ForwardRenderer.GetActiveLightCount` from forward_renderer.go:
scan the slot array from index 0 and return the index of the first nil
slot, or MaxForwardLights. -/
def ForwardRenderer.GetActiveLightCount (fr : ForwardRenderer) : ℕ :=
  scanLoop (fun i => (fr.lightAt i).isNone) 0 MaxForwardLights

/-- The stopping predicate of GetActiveShadowLightCount: the slot is nil
or the light in it has no shadow map. -/
def shadowScanStop (fr : ForwardRenderer) (i : ℕ) : Bool :=
  match fr.lightAt i with
  | none => true
  | some l => l.ShadowMap.isNone

/-- Go `ForwardRenderer.GetActiveShadowLightCount` from
forward_renderer.go: same scan, but also stops at the first active
light lacking a shadow map. -/
def ForwardRenderer.GetActiveShadowLightCount (fr : ForwardRenderer) : ℕ :=
  scanLoop (shadowScanStop fr) 0 MaxForwardLights

/-- Go `ForwardRenderer.Init` from forward_renderer.go: store the
dimensions and return the Go `error` result (`none` = nil = success).
The source performs no validation and always returns nil. -/
def ForwardRenderer.Init (fr : ForwardRenderer) (width height : ℤ) :
    ForwardRenderer × Option String :=
  ({ fr with width := width, height := height }, none)

/-- Go `ForwardRenderer.SetupShadowMapRendering` from forward_renderer.go:
allocate the shadow framebuffer, configure it for depth-only output,
and unbind. -/
def ForwardRenderer.SetupShadowMapRendering (fr : ForwardRenderer)
    (g : GfxState) : ForwardRenderer × GfxState :=
  let (fbo, g) := g.GenFramebuffer
  let g := g.BindFramebuffer graphics.FRAMEBUFFER fbo
  let g := g.DrawBuffers [graphics.NONE]
  let g := g.ReadBuffer graphics.NONE
  let g := g.BindFramebuffer graphics.FRAMEBUFFER 0
  ({ fr with shadowFBO := fbo }, g)

/-- Go `ForwardRenderer.StartShadowMapping` from forward_renderer.go: bind
the shadow framebuffer, enable the polygon-offset bias and front-face
culling, clear the current shadow light. -/
def ForwardRenderer.StartShadowMapping (fr : ForwardRenderer)
    (g : GfxState) : ForwardRenderer × GfxState :=
  let g := g.BindFramebuffer graphics.FRAMEBUFFER fr.shadowFBO
  let g := g.Enable graphics.POLYGON_OFFSET_FILL
  let g := g.PolygonOffset 4 4
  let g := g.Enable graphics.CULL_FACE
  let g := g.CullFace graphics.FRONT
  ({ fr with currentShadowPassLight := none }, g)

/-- Go `ForwardRenderer.EndShadowMapping` from forward_renderer.go: restore
back-face culling, disable the offset bias, unbind the framebuffer,
clear the current shadow light. -/
def ForwardRenderer.EndShadowMapping (fr : ForwardRenderer)
    (g : GfxState) : ForwardRenderer × GfxState :=
  let g := g.CullFace graphics.BACK
  let g := g.Disable graphics.CULL_FACE
  let g := g.Disable graphics.POLYGON_OFFSET_FILL
  let g := g.BindFramebuffer graphics.FRAMEBUFFER 0
  ({ fr with currentShadowPassLight := none }, g)

/-- Go `ForwardRenderer.EnableShadowMappingLight` from forward_renderer.go:
set the light as current, update its shadow-map data, attach its depth
texture to the framebuffer, clear the depth buffer, set the viewport to
the shadow map's square size.  On a light with no shadow map the source
dereferences the nil `ShadowMap` pointer (a runtime panic) after the
no-op update; the crash is modelled as `none`. -/
def ForwardRenderer.EnableShadowMappingLight (fr : ForwardRenderer)
    (l : Light) (g : GfxState) : Option (ForwardRenderer × Light × GfxState) :=
  let l' := l.UpdateShadowMapData
  match l'.ShadowMap with
  | none => none
  | some m =>
    let g := g.FramebufferTexture2D graphics.FRAMEBUFFER graphics.DEPTH_ATTACHMENT
        graphics.TEXTURE_2D m.Texture 0
    let g := g.Clear graphics.DEPTH_BUFFER_BIT
    let g := g.Viewport 0 0 m.TextureSize m.TextureSize
    some ({ fr with currentShadowPassLight := some l' }, l', g)

mutual

/-- Go `ForwardRenderer.DrawRenderable` from forward_renderer.go: skip
invisible nodes, recurse through groups, draw leaves with the node's
own core shader and TRIANGLES topology. -/
def ForwardRenderer.DrawRenderable (fr : ForwardRenderer) (r : Renderable)
    (binder : ℕ) (perspective view : Mat4) (g : GfxState) : GfxState :=
  match r with
  | .mk vis grp children coreShader =>
    -- only draw visible nodes
    if !vis then g
    -- if the renderable is a group, just try to draw the children
    else if grp then
      ForwardRenderer.drawRenderableChildren fr children binder perspective view g
    else
      bindAndDraw (.mk vis grp children coreShader) coreShader binder
        perspective view graphics.TRIANGLES g

/-- The `for _, child := range r.Children` loop of DrawRenderable. -/
def ForwardRenderer.drawRenderableChildren (fr : ForwardRenderer)
    (rs : RenderableList) (binder : ℕ) (perspective view : Mat4)
    (g : GfxState) : GfxState :=
  match rs with
  | .nil => g
  | .cons child rest =>
    ForwardRenderer.drawRenderableChildren fr rest binder perspective view
      (ForwardRenderer.DrawRenderable fr child binder perspective view g)

end

mutual

/-- Go `ForwardRenderer.DrawRenderableWithShader` from forward_renderer.go:
same traversal, but leaves are drawn with the caller-supplied shader. -/
def ForwardRenderer.DrawRenderableWithShader (fr : ForwardRenderer)
    (r : Renderable) (shader : ℕ) (binder : ℕ) (perspective view : Mat4)
    (g : GfxState) : GfxState :=
  match r with
  | .mk vis grp children coreShader =>
    if !vis then g
    else if grp then
      ForwardRenderer.drawRenderableWithShaderChildren fr children shader binder
        perspective view g
    else
      bindAndDraw (.mk vis grp children coreShader) shader binder
        perspective view graphics.TRIANGLES g

/-- The child loop of DrawRenderableWithShader. -/
def ForwardRenderer.drawRenderableWithShaderChildren (fr : ForwardRenderer)
    (rs : RenderableList) (shader : ℕ) (binder : ℕ) (perspective view : Mat4)
    (g : GfxState) : GfxState :=
  match rs with
  | .nil => g
  | .cons child rest =>
    ForwardRenderer.drawRenderableWithShaderChildren fr rest shader binder
      perspective view
      (ForwardRenderer.DrawRenderableWithShader fr child shader binder
        perspective view g)

end

mutual

/-- Go `ForwardRenderer.DrawLines` from forward_renderer.go: same
traversal, caller-supplied shader, LINES topology at leaves. -/
def ForwardRenderer.DrawLines (fr : ForwardRenderer) (r : Renderable)
    (shader : ℕ) (binder : ℕ) (perspective view : Mat4)
    (g : GfxState) : GfxState :=
  match r with
  | .mk vis grp children coreShader =>
    if !vis then g
    else if grp then
      ForwardRenderer.drawLinesChildren fr children shader binder
        perspective view g
    else
      bindAndDraw (.mk vis grp children coreShader) shader binder
        perspective view graphics.LINES g

/-- The child loop of DrawLines. -/
def ForwardRenderer.drawLinesChildren (fr : ForwardRenderer)
    (rs : RenderableList) (shader : ℕ) (binder : ℕ) (perspective view : Mat4)
    (g : GfxState) : GfxState :=
  match rs with
  | .nil => g
  | .cons child rest =>
    ForwardRenderer.drawLinesChildren fr rest shader binder perspective view
      (ForwardRenderer.DrawLines fr child shader binder perspective view g)

end

/-!
## Trace observations and test fixtures
-/

/-- Is the operation a draw submission? -/
def isDrawOp : GfxOp → Bool
  | .draw _ _ => true
  | _ => false

/-- Is the operation a texture release? -/
def isDeleteTextureOp : GfxOp → Bool
  | .deleteTexture _ => true
  | _ => false

/-- Is the operation a framebuffer texture attachment? -/
def isAttachOp : GfxOp → Bool
  | .framebufferTexture2D _ _ _ _ _ => true
  | _ => false

/-- Number of draw calls in a trace segment. -/
def countDraws (t : List GfxOp) : ℕ := (t.filter isDrawOp).length

/-- The operations a computation starting at device state `g` and ending
at `g'` appended to the trace. -/
def newOps (g g' : GfxState) : List GfxOp := g'.trace.drop g.trace.length

/-- The call sequence of the shadow-pass ordering property:
StartShadowMapping, enable the first light, draw, enable the second
light, draw, EndShadowMapping.  `none` when an enable step crashes. -/
def shadowPassSequence (fr : ForwardRenderer) (l1 l2 : Light)
    (r1 r2 : Renderable) (binder : ℕ) (perspective view : Mat4)
    (g : GfxState) : Option (ForwardRenderer × GfxState) :=
  let (fr1, g1) := fr.StartShadowMapping g
  match fr1.EnableShadowMappingLight l1 g1 with
  | none => none
  | some (fr2, _, g2) =>
    let g3 := fr2.DrawRenderable r1 binder perspective view g2
    match fr2.EnableShadowMappingLight l2 g3 with
    | none => none
    | some (fr3, _, g4) =>
      let g5 := fr3.DrawRenderable r2 binder perspective view g4
      some (fr3.EndShadowMapping g5)

/-- A 4-slot light array from explicit slot contents. -/
def mkLights4 (a b c d : Option Light) : Fin 4 → Option Light :=
  fun i => match i with
  | 0 => a
  | 1 => b
  | 2 => c
  | 3 => d

/-- A renderer holding the given 4 light slots. -/
def withLights (a b c d : Option Light) : ForwardRenderer :=
  { ActiveLights := mkLights4 a b c d }

/-- Fixture: a shadow map owning the given texture handle. -/
def smFix (tex : ℕ) : ShadowMap := { NewShadowMap with Texture := tex }

/-- Fixture: a light owning a shadow map with the given texture. -/
def lightShadow (tex : ℕ) : Light := { NewLight with ShadowMap := some (smFix tex) }

/-- Fixture: a light at position `p` whose shadow map casts along `dir`
with up vector `up`. -/
def lightPosDir (p dir up : Vec3) : Light :=
  { NewLight with
    Position := p
    ShadowMap := some { NewShadowMap with Direction := dir, Up := up } }

/-- Fixture: visible leaf A of the scene-tree example. -/
def exLeafA : Renderable := .mk true false .nil 7

/-- Fixture: visible leaf B of the scene-tree example, inside the
invisible inner group. -/
def exLeafB : Renderable := .mk true false .nil 8

/-- Fixture: the invisible inner group holding leaf B. -/
def exInnerGroup : Renderable := .mk false true (.cons exLeafB .nil) 0

/-- Fixture: the example tree
Group{visible}[Leaf A(visible), Group{invisible}[Leaf B(visible)]]. -/
def exTree : Renderable :=
  .mk true true (.cons exLeafA (.cons exInnerGroup .nil)) 0

/-- Fixture: the same tree with the root made invisible. -/
def exTreeInvisible : Renderable :=
  .mk false true (.cons exLeafA (.cons exInnerGroup .nil)) 0

mutual

/-- The list of device operations a DrawRenderable traversal emits,
computed directly over the tree (used to reason about draw calls
interleaved inside the shadow pass). -/
def drawOps (fr : ForwardRenderer) (r : Renderable) (binder : ℕ)
    (perspective view : Mat4) : List GfxOp :=
  match r with
  | .mk vis grp children coreShader =>
    if !vis then []
    else if grp then drawOpsList fr children binder perspective view
    else [.draw coreShader graphics.TRIANGLES]

/-- The operations emitted for a child list, in order. -/
def drawOpsList (fr : ForwardRenderer) (rs : RenderableList) (binder : ℕ)
    (perspective view : Mat4) : List GfxOp :=
  match rs with
  | .nil => []
  | .cons c rest =>
    drawOps fr c binder perspective view ++
      drawOpsList fr rest binder perspective view

end

/-!
## Scan-loop lemmas (shared by the light-count claims)
-/

/-- The counting loop never returns less than its start index. -/
theorem scanLoop_ge (p : ℕ → Bool) : ∀ (fuel i : ℕ), i ≤ scanLoop p i fuel
  | 0, i => Nat.le_refl i
  | fuel + 1, i => by
    unfold scanLoop
    split
    · exact Nat.le_refl i
    · exact Nat.le_trans (Nat.le_succ i) (scanLoop_ge p fuel (i + 1))

/-- The counting loop returns at most start index plus fuel. -/
theorem scanLoop_le (p : ℕ → Bool) : ∀ (fuel i : ℕ), scanLoop p i fuel ≤ i + fuel
  | 0, i => Nat.le_refl i
  | fuel + 1, i => by
    unfold scanLoop
    split
    · exact Nat.le_add_right i (fuel + 1)
    · exact Nat.le_trans (scanLoop_le p fuel (i + 1)) (by omega)

/-- Indices scanned before the returned one fail the stop predicate. -/
theorem scanLoop_not_before (p : ℕ → Bool) :
    ∀ (fuel i j : ℕ), i ≤ j → j < scanLoop p i fuel → p j = false
  | 0, i, j, hij, hlt => by
    unfold scanLoop at hlt
    omega
  | fuel + 1, i, j, hij, hlt => by
    unfold scanLoop at hlt
    by_cases hp : p i = true
    · simp [hp] at hlt
      omega
    · simp [hp] at hlt
      rcases Nat.eq_or_lt_of_le hij with h | h
      · simpa [h] using hp
      · exact scanLoop_not_before p fuel (i + 1) j h hlt
  termination_by fuel _ _ _ _ => fuel

/-- If the loop stops before exhausting its fuel, the stop predicate
holds at the returned index. -/
theorem scanLoop_hits (p : ℕ → Bool) :
    ∀ (fuel i : ℕ), scanLoop p i fuel < i + fuel → p (scanLoop p i fuel) = true
  | 0, i, hlt => by
    unfold scanLoop at hlt
    omega
  | fuel + 1, i, hlt => by
    unfold scanLoop at hlt ⊢
    by_cases hp : p i = true
    · simp [hp]
    · simp [hp] at hlt ⊢
      exact scanLoop_hits p fuel (i + 1) (by omega)

/-- A loop that stops at least as often returns at most as much. -/
theorem scanLoop_mono (p q : ℕ → Bool) (himp : ∀ j, q j = true → p j = true) :
    ∀ (fuel i : ℕ), scanLoop p i fuel ≤ scanLoop q i fuel
  | 0, i => Nat.le_refl i
  | fuel + 1, i => by
    unfold scanLoop
    by_cases hq : q i = true
    · simp [hq, himp i hq]
    · simp [hq]
      by_cases hp : p i = true
      · simp [hp]
        exact Nat.le_trans (Nat.le_succ i) (scanLoop_ge q fuel (i + 1))
      · simp [hp]
        exact scanLoop_mono p q himp fuel (i + 1)

/-!
## C7 — Init stores dimensions; validation behavior
-/

/-- C7 counterexample: `Init` called with a non-positive width stores it
and returns nil (success), so no caller-facing failure is produced for
invalid dimensions, refuting the claim as stated. -/
theorem Init_accepts_nonpositive_cex :
    (NewForwardRenderer.Init (-5) 10).2 = none ∧
    (NewForwardRenderer.Init (-5) 10).1.width = -5 ∧
    (NewForwardRenderer.Init (-5) 10).1.height = 10 :=
  ⟨rfl, rfl, rfl⟩

/-- C7 (amended): for every width and height, `Init` stores the given
dimensions and always returns success (the nil error), with no
validation of non-positive values and no internal retry. -/
theorem Init_stores_dimensions (fr : ForwardRenderer) (w h : ℤ) :
    (fr.Init w h).1.width = w ∧ (fr.Init w h).1.height = h ∧
    (fr.Init w h).2 = none :=
  ⟨rfl, rfl, rfl⟩

/-!
## Update lemmas shared by the shadow-matrix claims
-/

/-- UpdateShadowMapData is the identity on lights without a shadow
map. -/
theorem updateShadowMapData_none (l : Light) (h : l.ShadowMap = none) :
    l.UpdateShadowMapData = l := by
  simp [Light.UpdateShadowMapData, h]

/-- UpdateShadowMapData on a light with a shadow map: the explicit
record update it performs. -/
theorem updateShadowMapData_some (l : Light) (m : ShadowMap)
    (h : l.ShadowMap = some m) :
    l.UpdateShadowMapData = { l with ShadowMap := some { m with
      View := LookAtV l.Position (l.Position.Add m.Direction) m.Up,
      ViewProjMatrix := m.Projection.Mul4
        (LookAtV l.Position (l.Position.Add m.Direction) m.Up),
      BiasedMatrix := shadowBiasMat.Mul4 (m.Projection.Mul4
        (LookAtV l.Position (l.Position.Add m.Direction) m.Up)) } } := by
  simp [Light.UpdateShadowMapData, h]

/-!
## C8 — enabling a shadow light without a shadow map
-/

/-- C8: enabling shadow mapping on a light whose ShadowMap is nil fails
(the source dereferences the nil pointer, a runtime panic modelled as
`none`) rather than proceeding to bind shadow state, while a light
owning a shadow map proceeds. -/
theorem enable_without_map_fails (fr : ForwardRenderer) (l : Light)
    (g : GfxState) :
    (l.ShadowMap = none → fr.EnableShadowMappingLight l g = none) ∧
    (∀ m, l.ShadowMap = some m → (fr.EnableShadowMappingLight l g).isSome) := by
  constructor
  · intro h
    simp [ForwardRenderer.EnableShadowMappingLight, updateShadowMapData_none l h, h]
  · intro m h
    simp [ForwardRenderer.EnableShadowMappingLight, updateShadowMapData_some l m h]

/-- C8 witness: a concrete light without a map fails; one with a map
proceeds. -/
theorem enable_without_map_fails_witness :
    NewForwardRenderer.EnableShadowMappingLight NewLight GfxState.initial = none ∧
    (NewForwardRenderer.EnableShadowMappingLight (lightShadow 5) GfxState.initial).isSome :=
  ⟨(enable_without_map_fails NewForwardRenderer NewLight GfxState.initial).1 rfl,
   (enable_without_map_fails NewForwardRenderer (lightShadow 5) GfxState.initial).2
     (smFix 5) rfl⟩

/-!
## C5 — GetActiveLightCount is the prefix scan for the first nil slot
-/

/-- C5: GetActiveLightCount returns the index of the first nil slot (or
the full capacity 4): every slot before the count is populated, the slot
at the count (when below capacity) is nil; concretely it returns 0 for
an all-empty array, 2 for [L1, L2, empty, empty] and 1 for
[L1, empty, L3, empty] — a gap truncates the count. -/
theorem activeLightCount_first_nil (fr : ForwardRenderer) :
    fr.GetActiveLightCount ≤ MaxForwardLights ∧
    (∀ i, i < fr.GetActiveLightCount → fr.lightAt i ≠ none) ∧
    (fr.GetActiveLightCount < MaxForwardLights →
      fr.lightAt fr.GetActiveLightCount = none) ∧
    (withLights none none none none).GetActiveLightCount = 0 ∧
    (∀ L1 L2 : Light,
      (withLights (some L1) (some L2) none none).GetActiveLightCount = 2) ∧
    (∀ L1 L3 : Light,
      (withLights (some L1) none (some L3) none).GetActiveLightCount = 1) := by
  refine ⟨?_, ?_, ?_, rfl, fun L1 L2 => rfl, fun L1 L3 => rfl⟩
  · have h := scanLoop_le (fun i => (fr.lightAt i).isNone) MaxForwardLights 0
    simpa [ForwardRenderer.GetActiveLightCount] using h
  · intro i hi
    have h := scanLoop_not_before (fun k => (fr.lightAt k).isNone)
      MaxForwardLights 0 i (Nat.zero_le i)
      (by simpa [ForwardRenderer.GetActiveLightCount] using hi)
    intro hn
    simp [hn] at h
  · intro hlt
    have h := scanLoop_hits (fun k => (fr.lightAt k).isNone) MaxForwardLights 0
      (by simpa [ForwardRenderer.GetActiveLightCount] using hlt)
    simpa [ForwardRenderer.GetActiveLightCount, Option.isNone_iff_eq_none] using h

/-- C5 witness: on the concrete array [L, empty, empty, empty] the slot
before the count is populated and the slot at the count is nil. -/
theorem activeLightCount_first_nil_witness :
    (withLights (some NewLight) none none none).lightAt 0 ≠ none ∧
    (withLights (some NewLight) none none none).lightAt
      (withLights (some NewLight) none none none).GetActiveLightCount = none :=
  ⟨(activeLightCount_first_nil (withLights (some NewLight) none none none)).2.1
      0 (by decide),
   (activeLightCount_first_nil (withLights (some NewLight) none none none)).2.2.1
      (by decide)⟩

/-!
## C6 — GetActiveShadowLightCount also stops at lights without maps
-/

/-- C6: GetActiveShadowLightCount returns the index of the first slot
that is nil or holds a light without a shadow map (or the capacity 4):
every slot before the count holds a shadow-casting light, the stopping
slot is nil or shadowless; concretely it returns 0 when slot 0 holds a
light without a shadow map even if slot 1 holds one with it. -/
theorem activeShadowLightCount_scan (fr : ForwardRenderer) :
    fr.GetActiveShadowLightCount ≤ MaxForwardLights ∧
    (∀ i, i < fr.GetActiveShadowLightCount →
      ∃ li mi, fr.lightAt i = some li ∧ li.ShadowMap = some mi) ∧
    (fr.GetActiveShadowLightCount < MaxForwardLights →
      fr.lightAt fr.GetActiveShadowLightCount = none ∨
      ∃ li, fr.lightAt fr.GetActiveShadowLightCount = some li ∧
        li.ShadowMap = none) ∧
    (∀ L0 L1 : Light, L0.ShadowMap = none →
      (withLights (some L0) (some L1) none none).GetActiveShadowLightCount = 0) := by
  refine ⟨?_, ?_, ?_, ?_⟩
  · have h := scanLoop_le (shadowScanStop fr) MaxForwardLights 0
    simpa [ForwardRenderer.GetActiveShadowLightCount] using h
  · intro i hi
    have h := scanLoop_not_before (shadowScanStop fr)
      MaxForwardLights 0 i (Nat.zero_le i)
      (by simpa [ForwardRenderer.GetActiveShadowLightCount] using hi)
    rcases hfa : fr.lightAt i with _ | li
    · rw [shadowScanStop, hfa] at h
      simp at h
    · rcases hsm : li.ShadowMap with _ | mi
      · rw [shadowScanStop, hfa] at h
        simp [hsm] at h
      · exact ⟨li, mi, rfl, hsm⟩
  · intro hlt
    have h := scanLoop_hits (shadowScanStop fr) MaxForwardLights 0
      (by simpa [ForwardRenderer.GetActiveShadowLightCount] using hlt)
    rcases hfa : fr.lightAt fr.GetActiveShadowLightCount with _ | li
    · exact Or.inl rfl
    · refine Or.inr ⟨li, rfl, ?_⟩
      rw [ForwardRenderer.GetActiveShadowLightCount] at hfa
      rw [shadowScanStop, hfa] at h
      simpa [Option.isNone_iff_eq_none] using h
  · intro L0 L1 h
    simp [ForwardRenderer.GetActiveShadowLightCount, scanLoop, shadowScanStop,
      ForwardRenderer.lightAt, withLights, mkLights4, h, MaxForwardLights]

/-- C6 witness: slot 0 a light without a shadow map, slot 1 a light with
one: the count is 0. -/
theorem activeShadowLightCount_scan_witness :
    (withLights (some NewLight) (some (lightShadow 5)) none
      none).GetActiveShadowLightCount = 0 :=
  (activeShadowLightCount_scan (withLights (some NewLight)
      (some (lightShadow 5)) none none)).2.2.2 NewLight (lightShadow 5) rfl

/-!
## C10 — the shadow scan never exceeds the plain scan
-/

/-- C10: for every renderer state, GetActiveShadowLightCount is at most
GetActiveLightCount: the scan with the additional stopping condition can
never report more lights. -/
theorem shadowLightCount_le_lightCount (fr : ForwardRenderer) :
    fr.GetActiveShadowLightCount ≤ fr.GetActiveLightCount := by
  have h := scanLoop_mono (shadowScanStop fr) (fun i => (fr.lightAt i).isNone)
    (fun j hj => by
      rw [Option.isNone_iff_eq_none] at hj
      simp [shadowScanStop, hj])
    MaxForwardLights 0
  simpa [ForwardRenderer.GetActiveShadowLightCount,
    ForwardRenderer.GetActiveLightCount] using h

/-!
## C2 — the shadow matrices recomputed by UpdateShadowMapData
-/

/-- C2: UpdateShadowMapData is a no-op when the light has no shadow map;
otherwise it sets View to the look-at matrix from the light's position
toward position + shadow direction with the map's up vector, sets
ViewProjMatrix to Projection composed with that View, sets BiasedMatrix
to the fixed bias matrix composed after ViewProjMatrix (and touches
nothing else); the bias matrix maps a clip-space coordinate c in [-1,1]
affinely to c/2 + 1/2 in texture-space [0,1]. -/
theorem updateShadowMapData_matrices (l : Light) :
    (l.ShadowMap = none → l.UpdateShadowMapData = l) ∧
    (∀ m, l.ShadowMap = some m →
      ∃ m', l.UpdateShadowMapData.ShadowMap = some m' ∧
        m'.View = LookAtV l.Position (l.Position.Add m.Direction) m.Up ∧
        m'.ViewProjMatrix = m.Projection.Mul4 m'.View ∧
        m'.BiasedMatrix = shadowBiasMat.Mul4 m'.ViewProjMatrix ∧
        m'.Texture = m.Texture ∧ m'.TextureSize = m.TextureSize ∧
        m'.Direction = m.Direction ∧ m'.Near = m.Near ∧ m'.Far = m.Far ∧
        m'.Up = m.Up ∧ m'.Projection = m.Projection) ∧
    (∀ x y z : ℚ, shadowBiasMat.Mul4x1 ⟨x, y, z, 1⟩ =
      ⟨x / 2 + 1 / 2, y / 2 + 1 / 2, z / 2 + 1 / 2, 1⟩) ∧
    (∀ c : ℚ, -1 ≤ c → c ≤ 1 → 0 ≤ c / 2 + 1 / 2 ∧ c / 2 + 1 / 2 ≤ 1) := by
  refine ⟨updateShadowMapData_none l, ?_, ?_, ?_⟩
  · intro m h
    rw [updateShadowMapData_some l m h]
    exact ⟨_, rfl, rfl, rfl, rfl, rfl, rfl, rfl, rfl, rfl, rfl, rfl⟩
  · intro x y z
    simp only [Mat4.Mul4x1, shadowBiasMat, Vec4.mk.injEq]
    norm_num
    refine ⟨by ring, by ring, by ring⟩
  · intro c h1 h2
    constructor <;> linarith

/-- C2 witness: the no-op case on a concrete light without a map, and
the recompute case on a concrete light with one. -/
theorem updateShadowMapData_matrices_witness :
    NewLight.UpdateShadowMapData = NewLight ∧
    ∃ m', (lightShadow 5).UpdateShadowMapData.ShadowMap = some m' ∧
      m'.View = LookAtV (lightShadow 5).Position
        ((lightShadow 5).Position.Add (smFix 5).Direction) (smFix 5).Up := by
  refine ⟨(updateShadowMapData_matrices NewLight).1 rfl, ?_⟩
  obtain ⟨m', hm, hv, -⟩ :=
    (updateShadowMapData_matrices (lightShadow 5)).2.1 (smFix 5) rfl
  exact ⟨m', hm, hv⟩

/-!
## C1 — the draw traversal prunes invisible subtrees
-/

/-- C1: in all three draw traversals an invisible node issues zero draw
calls and is pruned whole (its children are never visited); a visible
group issues no draw call itself and equals the in-order recursion over
its children with the same parameters; a visible leaf issues exactly one
draw call (own core shader + TRIANGLES, override shader + TRIANGLES, or
override shader + LINES respectively); on the concrete tree
Group{visible}[Leaf A(visible), Group{invisible}[Leaf B]] exactly one
draw call is issued, and zero with the root invisible. -/
theorem drawRenderable_traversal :
    (∀ (fr : ForwardRenderer) (r : Renderable) (binder : ℕ)
        (persp view : Mat4) (g : GfxState) (shader : ℕ),
      r.IsVisible = false →
      fr.DrawRenderable r binder persp view g = g ∧
      fr.DrawRenderableWithShader r shader binder persp view g = g ∧
      fr.DrawLines r shader binder persp view g = g) ∧
    (∀ (fr : ForwardRenderer) (children : RenderableList) (coreShader : ℕ)
        (binder : ℕ) (persp view : Mat4) (g : GfxState) (shader : ℕ),
      fr.DrawRenderable (.mk true true children coreShader) binder persp view g =
        fr.drawRenderableChildren children binder persp view g ∧
      fr.DrawRenderableWithShader (.mk true true children coreShader) shader
          binder persp view g =
        fr.drawRenderableWithShaderChildren children shader binder persp view g ∧
      fr.DrawLines (.mk true true children coreShader) shader binder persp view g =
        fr.drawLinesChildren children shader binder persp view g) ∧
    (∀ (fr : ForwardRenderer) (children : RenderableList) (coreShader : ℕ)
        (binder : ℕ) (persp view : Mat4) (g : GfxState) (shader : ℕ),
      fr.DrawRenderable (.mk true false children coreShader) binder persp view g =
        { g with trace := g.trace ++ [.draw coreShader graphics.TRIANGLES] } ∧
      fr.DrawRenderableWithShader (.mk true false children coreShader) shader
          binder persp view g =
        { g with trace := g.trace ++ [.draw shader graphics.TRIANGLES] } ∧
      fr.DrawLines (.mk true false children coreShader) shader binder persp view g =
        { g with trace := g.trace ++ [.draw shader graphics.LINES] }) ∧
    countDraws (newOps GfxState.initial
      (NewForwardRenderer.DrawRenderable exTree 0 Ident4 Ident4
        GfxState.initial)) = 1 ∧
    countDraws (newOps GfxState.initial
      (NewForwardRenderer.DrawRenderable exTreeInvisible 0 Ident4 Ident4
        GfxState.initial)) = 0 := by
  refine ⟨?_, ?_, ?_, ?_, ?_⟩
  · intro fr r binder persp view g shader h
    rcases r with ⟨vis, grp, children, coreShader⟩
    rw [Renderable.IsVisible] at h
    subst h
    refine ⟨?_, ?_, ?_⟩ <;>
      simp [ForwardRenderer.DrawRenderable, ForwardRenderer.DrawRenderableWithShader,
        ForwardRenderer.DrawLines]
  · intro fr children coreShader binder persp view g shader
    refine ⟨?_, ?_, ?_⟩ <;>
      simp [ForwardRenderer.DrawRenderable, ForwardRenderer.DrawRenderableWithShader,
        ForwardRenderer.DrawLines]
  · intro fr children coreShader binder persp view g shader
    refine ⟨?_, ?_, ?_⟩ <;>
      simp [ForwardRenderer.DrawRenderable, ForwardRenderer.DrawRenderableWithShader,
        ForwardRenderer.DrawLines, bindAndDraw]
  · simp [ForwardRenderer.DrawRenderable, ForwardRenderer.drawRenderableChildren,
      exTree, exTreeInvisible, exLeafA, exLeafB, exInnerGroup, bindAndDraw,
      countDraws, newOps, GfxState.initial, isDrawOp]
  · simp [ForwardRenderer.DrawRenderable, ForwardRenderer.drawRenderableChildren,
      exTree, exTreeInvisible, exLeafA, exLeafB, exInnerGroup, bindAndDraw,
      countDraws, newOps, GfxState.initial, isDrawOp]

/-- C1 witness: pruning on a concrete invisible leaf, and the single
draw call of a concrete visible leaf. -/
theorem drawRenderable_traversal_witness :
    NewForwardRenderer.DrawRenderable (.mk false false .nil 3) 0 Ident4 Ident4
      GfxState.initial = GfxState.initial ∧
    NewForwardRenderer.DrawRenderable (.mk true false .nil 3) 0 Ident4 Ident4
      GfxState.initial =
      { GfxState.initial with trace := [GfxOp.draw 3 graphics.TRIANGLES] } :=
  ⟨(drawRenderable_traversal.1 NewForwardRenderer (.mk false false .nil 3) 0
      Ident4 Ident4 GfxState.initial 0 rfl).1,
   (drawRenderable_traversal.2.2.1 NewForwardRenderer .nil 3 0
      Ident4 Ident4 GfxState.initial 0).1⟩

/-!
## C3 — replacing a shadow map releases the old texture exactly once
-/

/-- C3: on a light that already owns a shadow map, CreateShadowMap emits
exactly one DeleteTexture call — for the old texture — and emits it
first, before the replacement texture is allocated; the new map owns the
freshly allocated texture.  Two consecutive CreateShadowMap calls on a
light that starts without a map release exactly one texture in total:
the one allocated by the first call. -/
theorem createShadowMap_release :
    (∀ (l : Light) (m : ShadowMap) (ts : ℤ) (near far : ℚ) (dir : Vec3)
        (g : GfxState),
      l.ShadowMap = some m →
      (newOps g (l.CreateShadowMap ts near far dir g).2).filter
          isDeleteTextureOp = [GfxOp.deleteTexture m.Texture] ∧
      (newOps g (l.CreateShadowMap ts near far dir g).2).head? =
        some (GfxOp.deleteTexture m.Texture) ∧
      ∃ m', (l.CreateShadowMap ts near far dir g).1.ShadowMap = some m' ∧
        m'.Texture = g.nextTexture) ∧
    (∀ (l : Light) (ts ts' : ℤ) (near far near' far' : ℚ) (dir dir' : Vec3)
        (g : GfxState),
      l.ShadowMap = none →
      (newOps g ((l.CreateShadowMap ts near far dir g).1.CreateShadowMap
          ts' near' far' dir' (l.CreateShadowMap ts near far dir g).2).2).filter
          isDeleteTextureOp = [GfxOp.deleteTexture g.nextTexture]) := by
  constructor
  · intro l m ts near far dir g h
    refine ⟨?_, ?_, ?_⟩ <;>
      simp [Light.CreateShadowMap, h, ShadowMap.Destroy, GfxState.DeleteTexture,
        GfxState.GenTexture, GfxState.ActiveTexture, GfxState.BindTexture,
        GfxState.TexImage2D, GfxState.TexParameteri, GfxState.TexParameterfv,
        newOps, isDeleteTextureOp]
  · intro l ts ts' near far near' far' dir dir' g h
    simp [Light.CreateShadowMap, h, ShadowMap.Destroy, GfxState.DeleteTexture,
      GfxState.GenTexture, GfxState.ActiveTexture, GfxState.BindTexture,
      GfxState.TexImage2D, GfxState.TexParameteri, GfxState.TexParameterfv,
      newOps, isDeleteTextureOp]

/-- C3 witness: a concrete light owning texture 5 in a fresh device
state: replacing its map deletes exactly texture 5 first and the new map
owns the fresh texture 1. -/
theorem createShadowMap_release_witness :
    (newOps GfxState.initial
        ((lightShadow 5).CreateShadowMap 512 1 50 ⟨0, 0, -1⟩
          GfxState.initial).2).filter isDeleteTextureOp =
      [GfxOp.deleteTexture 5] ∧
    ∃ m', ((lightShadow 5).CreateShadowMap 512 1 50 ⟨0, 0, -1⟩
        GfxState.initial).1.ShadowMap = some m' ∧ m'.Texture = 1 := by
  obtain ⟨h1, -, h3⟩ := createShadowMap_release.1 (lightShadow 5) (smFix 5)
    512 1 50 ⟨0, 0, -1⟩ GfxState.initial rfl
  exact ⟨h1, h3⟩

/-!
## C4 — shadow-pass ordering and state restoration
-/

mutual

/-- DrawRenderable only appends its emitted operations to the trace and
changes no other device register. -/
theorem drawRenderable_ops (fr : ForwardRenderer) (r : Renderable)
    (binder : ℕ) (persp view : Mat4) (g : GfxState) :
    fr.DrawRenderable r binder persp view g =
      { g with trace := g.trace ++ drawOps fr r binder persp view } := by
  rcases r with ⟨vis, grp, children, coreShader⟩
  rw [ForwardRenderer.DrawRenderable, drawOps]
  cases vis
  · simp
  · cases grp
    · simp [bindAndDraw]
    · simpa using drawRenderableChildren_ops fr children binder persp view g

/-- The child loop likewise only appends its emitted operations. -/
theorem drawRenderableChildren_ops (fr : ForwardRenderer)
    (rs : RenderableList) (binder : ℕ) (persp view : Mat4) (g : GfxState) :
    fr.drawRenderableChildren rs binder persp view g =
      { g with trace := g.trace ++ drawOpsList fr rs binder persp view } := by
  cases rs with
  | nil => simp [ForwardRenderer.drawRenderableChildren, drawOpsList]
  | cons c rest =>
    rw [ForwardRenderer.drawRenderableChildren, drawOpsList,
      drawRenderable_ops fr c binder persp view g,
      drawRenderableChildren_ops fr rest binder persp view]
    simp

end

mutual

/-- Every operation a draw traversal emits is a draw submission. -/
theorem drawOps_all_draw (fr : ForwardRenderer) (r : Renderable)
    (binder : ℕ) (persp view : Mat4) :
    ∀ op ∈ drawOps fr r binder persp view, isDrawOp op = true := by
  rcases r with ⟨vis, grp, children, coreShader⟩
  rw [drawOps]
  cases vis
  · simp
  · cases grp
    · simp [isDrawOp]
    · simpa using drawOpsList_all_draw fr children binder persp view

/-- Every operation the child loop emits is a draw submission. -/
theorem drawOpsList_all_draw (fr : ForwardRenderer) (rs : RenderableList)
    (binder : ℕ) (persp view : Mat4) :
    ∀ op ∈ drawOpsList fr rs binder persp view, isDrawOp op = true := by
  cases rs with
  | nil => simp [drawOpsList]
  | cons c rest =>
    rw [drawOpsList]
    intro op hop
    rcases List.mem_append.1 hop with h | h
    · exact drawOps_all_draw fr c binder persp view op h
    · exact drawOpsList_all_draw fr rest binder persp view op h

end

/-- A predicate false on draw submissions filters a trace of draw
submissions to nothing. -/
theorem filter_eq_nil_of_draws (p : GfxOp → Bool)
    (hp : ∀ op, isDrawOp op = true → p op = false) :
    ∀ t : List GfxOp, (∀ op ∈ t, isDrawOp op = true) → t.filter p = [] := by
  intro t
  induction t with
  | nil => intro _; rfl
  | cons a t ih =>
    intro h
    have ha := hp a (h a (by simp))
    simp [List.filter_cons, ha]
    exact fun op hop => hp op (h op (by simp [hop]))

/-- Draw submissions are not framebuffer attachments. -/
theorem isDrawOp_not_attach (op : GfxOp) (h : isDrawOp op = true) :
    isAttachOp op = false := by
  cases op <;> simp_all [isDrawOp, isAttachOp]

/-- A draw traversal emits no framebuffer attachments. -/
theorem filter_attach_drawOps (fr : ForwardRenderer) (r : Renderable)
    (binder : ℕ) (persp view : Mat4) :
    (drawOps fr r binder persp view).filter isAttachOp = [] :=
  filter_eq_nil_of_draws isAttachOp isDrawOp_not_attach _
    (drawOps_all_draw fr r binder persp view)

/-- A framebuffer attachment never occurs among emitted draw
operations. -/
theorem attach_not_mem_drawOps (fr : ForwardRenderer) (r : Renderable)
    (binder : ℕ) (persp view : Mat4) (a b c tex : ℕ) (lvl : ℤ) :
    GfxOp.framebufferTexture2D a b c tex lvl ∉ drawOps fr r binder persp view := by
  intro hmem
  have h := drawOps_all_draw fr r binder persp view _ hmem
  simp [isDrawOp] at h

/-- EnableShadowMappingLight on a light owning a shadow map: the
normalized result (current light set to the updated light; attach the
map's texture, clear depth, set the square viewport). -/
theorem enableShadowMappingLight_some (fr : ForwardRenderer) (l : Light)
    (m : ShadowMap) (g : GfxState) (h : l.ShadowMap = some m) :
    fr.EnableShadowMappingLight l g =
      some ({ fr with currentShadowPassLight := some l.UpdateShadowMapData },
        l.UpdateShadowMapData,
        { g with trace := g.trace ++
          [GfxOp.framebufferTexture2D graphics.FRAMEBUFFER
            graphics.DEPTH_ATTACHMENT graphics.TEXTURE_2D m.Texture 0,
           GfxOp.clear graphics.DEPTH_BUFFER_BIT,
           GfxOp.viewport 0 0 m.TextureSize m.TextureSize] }) := by
  simp [ForwardRenderer.EnableShadowMappingLight, updateShadowMapData_some l m h,
    GfxState.FramebufferTexture2D, GfxState.Clear, GfxState.Viewport]

/-- C4: the sequence StartShadowMapping; EnableShadowMappingLight(L1);
draw; EnableShadowMappingLight(L2); draw; EndShadowMapping leaves the
face-culling direction restored to BACK, the polygon-offset bias
disabled, the framebuffer unbound and the current shadow light cleared,
and its trace attaches each light's depth texture exactly once, in call
order. -/
theorem shadowPass_restores_and_attaches (fr : ForwardRenderer)
    (l1 l2 : Light) (m1 m2 : ShadowMap) (r1 r2 : Renderable) (binder : ℕ)
    (persp view : Mat4) (g : GfxState)
    (h1 : l1.ShadowMap = some m1) (h2 : l2.ShadowMap = some m2)
    (hne : m1.Texture ≠ m2.Texture) :
    ∃ fr' g',
      shadowPassSequence fr l1 l2 r1 r2 binder persp view g = some (fr', g') ∧
      g'.cullFaceMode = graphics.BACK ∧
      graphics.POLYGON_OFFSET_FILL ∉ g'.enabledCaps ∧
      g'.boundFramebuffer = 0 ∧
      fr'.currentShadowPassLight = none ∧
      (newOps g g').filter isAttachOp =
        [GfxOp.framebufferTexture2D graphics.FRAMEBUFFER
          graphics.DEPTH_ATTACHMENT graphics.TEXTURE_2D m1.Texture 0,
         GfxOp.framebufferTexture2D graphics.FRAMEBUFFER
          graphics.DEPTH_ATTACHMENT graphics.TEXTURE_2D m2.Texture 0] ∧
      ((newOps g g').filter isAttachOp).count
        (GfxOp.framebufferTexture2D graphics.FRAMEBUFFER
          graphics.DEPTH_ATTACHMENT graphics.TEXTURE_2D m1.Texture 0) = 1 ∧
      ((newOps g g').filter isAttachOp).count
        (GfxOp.framebufferTexture2D graphics.FRAMEBUFFER
          graphics.DEPTH_ATTACHMENT graphics.TEXTURE_2D m2.Texture 0) = 1 := by
  have hfb : GfxOp.framebufferTexture2D graphics.FRAMEBUFFER
      graphics.DEPTH_ATTACHMENT graphics.TEXTURE_2D m2.Texture 0 ≠
    GfxOp.framebufferTexture2D graphics.FRAMEBUFFER
      graphics.DEPTH_ATTACHMENT graphics.TEXTURE_2D m1.Texture 0 := by
    simp [Ne.symm hne]
  simp only [shadowPassSequence, ForwardRenderer.StartShadowMapping,
    ForwardRenderer.EndShadowMapping, GfxState.BindFramebuffer,
    GfxState.Enable, GfxState.PolygonOffset, GfxState.CullFace,
    GfxState.Disable, enableShadowMappingLight_some _ l1 m1 _ h1,
    enableShadowMappingLight_some _ l2 m2 _ h2, drawRenderable_ops]
  refine ⟨_, _, rfl, rfl, ?_, rfl, rfl, ?_, ?_, ?_⟩
  · simp
  · simp [newOps, List.filter_append, filter_attach_drawOps, isAttachOp]
  · simp [newOps, List.filter_append, filter_attach_drawOps, isAttachOp,
      List.count_cons, hfb]
  · simp [newOps, List.filter_append, filter_attach_drawOps, isAttachOp,
      List.count_cons, hfb]

/-- C4 witness: two concrete lights with distinct textures 5 and 6 run
through the concrete sequence. -/
theorem shadowPass_restores_and_attaches_witness :
    ∃ fr' g',
      shadowPassSequence NewForwardRenderer (lightShadow 5) (lightShadow 6)
        exLeafA exLeafB 0 Ident4 Ident4 GfxState.initial = some (fr', g') ∧
      g'.cullFaceMode = graphics.BACK ∧
      (newOps GfxState.initial g').filter isAttachOp =
        [GfxOp.framebufferTexture2D graphics.FRAMEBUFFER
          graphics.DEPTH_ATTACHMENT graphics.TEXTURE_2D 5 0,
         GfxOp.framebufferTexture2D graphics.FRAMEBUFFER
          graphics.DEPTH_ATTACHMENT graphics.TEXTURE_2D 6 0] := by
  obtain ⟨fr', g', hseq, hcull, -, -, -, hattach, -, -⟩ :=
    shadowPass_restores_and_attaches NewForwardRenderer (lightShadow 5)
      (lightShadow 6) (smFix 5) (smFix 6) exLeafA exLeafB 0 Ident4 Ident4
      GfxState.initial rfl rfl (by decide)
  exact ⟨fr', g', hseq, hcull, hattach⟩

/-!
## C9 — shadow view target, idempotence, position sensitivity

Vector-algebra lemmas for the look-at basis.
-/

/-- Dot product is symmetric. -/
theorem Vec3.dot_comm (v u : Vec3) : v.Dot u = u.Dot v := by
  rcases v with ⟨vx, vy, vz⟩
  rcases u with ⟨ux, uy, uz⟩
  simp [Vec3.Dot]
  ring

/-- Scaling the left factor scales the cross product. -/
theorem Vec3.cross_mul_left (v u : Vec3) (k : ℚ) :
    (v.Mul k).Cross u = (v.Cross u).Mul k := by
  rcases v with ⟨vx, vy, vz⟩
  rcases u with ⟨ux, uy, uz⟩
  simp [Vec3.Cross, Vec3.Mul, Vec3.mk.injEq]
  refine ⟨by ring, by ring, by ring⟩

/-- Scaling the right factor scales the cross product. -/
theorem Vec3.cross_mul_right (v u : Vec3) (k : ℚ) :
    v.Cross (u.Mul k) = (v.Cross u).Mul k := by
  rcases v with ⟨vx, vy, vz⟩
  rcases u with ⟨ux, uy, uz⟩
  simp [Vec3.Cross, Vec3.Mul, Vec3.mk.injEq]
  refine ⟨by ring, by ring, by ring⟩

/-- Scaling the left factor scales the dot product. -/
theorem Vec3.dot_mul_left (v u : Vec3) (k : ℚ) :
    (v.Mul k).Dot u = k * (v.Dot u) := by
  rcases v with ⟨vx, vy, vz⟩
  rcases u with ⟨ux, uy, uz⟩
  simp [Vec3.Dot, Vec3.Mul]
  ring

/-- Composed scalings multiply. -/
theorem Vec3.mul_mul (v : Vec3) (k k' : ℚ) :
    (v.Mul k).Mul k' = v.Mul (k * k') := by
  rcases v with ⟨vx, vy, vz⟩
  simp [Vec3.Mul, Vec3.mk.injEq]
  refine ⟨by ring, by ring, by ring⟩

/-- Normalization written through `ratSqrt`. -/
theorem Vec3.normalize_eq (v : Vec3) :
    v.Normalize = v.Mul (1 / ratSqrt (v.Dot v)) := rfl

/-- Adding then subtracting a position recovers the direction. -/
theorem Vec3.add_sub_cancel (p d : Vec3) : (p.Add d).Sub p = d := by
  rcases p with ⟨px, py, pz⟩
  rcases d with ⟨dx, dy, dz⟩
  simp [Vec3.Add, Vec3.Sub]

/-- Over the rationals a vector with zero self-dot is the zero
vector. -/
theorem Vec3.dot_self_ne_zero (v : Vec3) (h : v ≠ Vec3.zero) :
    v.Dot v ≠ 0 := by
  rcases v with ⟨vx, vy, vz⟩
  intro h0
  rw [Vec3.Dot] at h0
  apply h
  rw [Vec3.zero]
  have hx : vx * vx = 0 := le_antisymm
    (by nlinarith [mul_self_nonneg vy, mul_self_nonneg vz]) (mul_self_nonneg vx)
  have hy : vy * vy = 0 := le_antisymm
    (by nlinarith [mul_self_nonneg vx, mul_self_nonneg vz]) (mul_self_nonneg vy)
  have hz : vz * vz = 0 := le_antisymm
    (by nlinarith [mul_self_nonneg vx, mul_self_nonneg vy]) (mul_self_nonneg vz)
  simp [Vec3.mk.injEq, mul_self_eq_zero.mp hx, mul_self_eq_zero.mp hy,
    mul_self_eq_zero.mp hz]

/-- The cross product with a zero left factor vanishes. -/
theorem Vec3.zero_cross (u : Vec3) : Vec3.zero.Cross u = Vec3.zero := by
  rcases u with ⟨ux, uy, uz⟩
  simp [Vec3.Cross, Vec3.zero]

/-- Orthogonal-by-construction decomposition: d, d × u and (d × u) × d
resolve any vector, up to the product of the squared norms (a polynomial
identity, valid with no side conditions). -/
theorem cross_basis_decomp (d u x : Vec3) :
    ((d.Dot d) * ((d.Cross u).Dot (d.Cross u))) * x.x =
      (d.Dot x) * ((d.Cross u).Dot (d.Cross u)) * d.x +
      ((d.Cross u).Dot x) * (d.Dot d) * (d.Cross u).x +
      (((d.Cross u).Cross d).Dot x) * ((d.Cross u).Cross d).x ∧
    ((d.Dot d) * ((d.Cross u).Dot (d.Cross u))) * x.y =
      (d.Dot x) * ((d.Cross u).Dot (d.Cross u)) * d.y +
      ((d.Cross u).Dot x) * (d.Dot d) * (d.Cross u).y +
      (((d.Cross u).Cross d).Dot x) * ((d.Cross u).Cross d).y ∧
    ((d.Dot d) * ((d.Cross u).Dot (d.Cross u))) * x.z =
      (d.Dot x) * ((d.Cross u).Dot (d.Cross u)) * d.z +
      ((d.Cross u).Dot x) * (d.Dot d) * (d.Cross u).z +
      (((d.Cross u).Cross d).Dot x) * ((d.Cross u).Cross d).z := by
  rcases d with ⟨dx, dy, dz⟩
  rcases u with ⟨ux, uy, uz⟩
  rcases x with ⟨xx, xy, xz⟩
  refine ⟨?_, ?_, ?_⟩ <;>
    · simp [Vec3.Dot, Vec3.Cross]
      ring

/-- A vector orthogonal to d, d × u and (d × u) × d is zero once
d × u is nonzero. -/
theorem eq_zero_of_orth_basis (d u x : Vec3) (hc : d.Cross u ≠ Vec3.zero)
    (hd : d.Dot x = 0) (hcx : (d.Cross u).Dot x = 0)
    (he : ((d.Cross u).Cross d).Dot x = 0) : x = Vec3.zero := by
  have hdz : d ≠ Vec3.zero := by
    intro h
    exact hc (by rw [h, Vec3.zero_cross])
  have hdd : d.Dot d ≠ 0 := Vec3.dot_self_ne_zero d hdz
  have hcc : (d.Cross u).Dot (d.Cross u) ≠ 0 := Vec3.dot_self_ne_zero _ hc
  obtain ⟨e1, e2, e3⟩ := cross_basis_decomp d u x
  rw [hd, hcx, he] at e1 e2 e3
  simp at e1 e2 e3
  rcases x with ⟨xx, xy, xz⟩
  rw [Vec3.zero]
  simp only [Vec3.mk.injEq]
  refine ⟨?_, ?_, ?_⟩
  · rcases e1 with (h | h) | h
    · exact absurd h hdd
    · exact absurd h hcc
    · exact h
  · rcases e2 with (h | h) | h
    · exact absurd h hdd
    · exact absurd h hcc
    · exact h
  · rcases e3 with (h | h) | h
    · exact absurd h hdd
    · exact absurd h hcc
    · exact h

/-- Dot product distributes over vector subtraction. -/
theorem Vec3.dot_sub (v p q : Vec3) : v.Dot (p.Sub q) = v.Dot p - v.Dot q := by
  rcases v with ⟨vx, vy, vz⟩
  rcases p with ⟨px, py, pz⟩
  rcases q with ⟨qx, qy, qz⟩
  simp [Vec3.Dot, Vec3.Sub]
  ring

/-- Vectors with zero difference are equal. -/
theorem Vec3.eq_of_sub_eq_zero (p q : Vec3) (h : p.Sub q = Vec3.zero) :
    p = q := by
  rcases p with ⟨px, py, pz⟩
  rcases q with ⟨qx, qy, qz⟩
  simp [Vec3.Sub, Vec3.zero, Vec3.mk.injEq] at h ⊢
  refine ⟨by linarith [h.1], by linarith [h.2.1], by linarith [h.2.2]⟩

/-- The translation column of the look-at matrix: the three entries are
the negated dots of the side, up and (negated) forward basis vectors
with the eye position. -/
theorem lookAtV_last_col (eye center up : Vec3) :
    (LookAtV eye center up).a30 =
      -((((center.Sub eye).Normalize.Cross up.Normalize).Normalize).Dot eye) ∧
    (LookAtV eye center up).a31 =
      -(((((center.Sub eye).Normalize.Cross up.Normalize).Normalize).Cross
          (center.Sub eye).Normalize).Dot eye) ∧
    (LookAtV eye center up).a32 = (center.Sub eye).Normalize.Dot eye := by
  refine ⟨?_, ?_, ?_⟩ <;>
    simp [LookAtV, Mat4.Mul4, Translate3D, Vec3.Cross, Vec3.Dot] <;>
    ring

/-- With a nondegenerate direction/up pair (nonzero normalization
lengths and nonparallel direction and up), the look-at view matrix
determines the eye position: different positions along the same
direction and up give different view matrices. -/
theorem lookAt_position_injective (p p' d up : Vec3)
    (ha : ratSqrt (d.Dot d) ≠ 0)
    (hb : ratSqrt (up.Dot up) ≠ 0)
    (hc : d.Cross up ≠ Vec3.zero)
    (hw : ratSqrt (((d.Normalize).Cross up.Normalize).Dot
      ((d.Normalize).Cross up.Normalize)) ≠ 0)
    (hview : LookAtV p (p.Add d) up = LookAtV p' (p'.Add d) up) : p = p' := by
  set a := ratSqrt (d.Dot d) with ha_def
  set b := ratSqrt (up.Dot up) with hb_def
  have hfn : d.Normalize = d.Mul (1 / a) := by
    rw [Vec3.normalize_eq]
  have hw1 : (d.Normalize).Cross up.Normalize =
      (d.Cross up).Mul (1 / a * (1 / b)) := by
    rw [hfn, Vec3.normalize_eq up, Vec3.cross_mul_left, Vec3.cross_mul_right,
      Vec3.mul_mul]
    congr 1
    rw [hb_def]
    ring
  rw [hw1] at hw
  set c := ratSqrt (((d.Cross up).Mul (1 / a * (1 / b))).Dot
    ((d.Cross up).Mul (1 / a * (1 / b)))) with hc_def
  have hs : ((d.Normalize).Cross up.Normalize).Normalize =
      (d.Cross up).Mul (1 / a * (1 / b) * (1 / c)) := by
    rw [hw1, Vec3.normalize_eq, Vec3.mul_mul]
  have hu : (((d.Normalize).Cross up.Normalize).Normalize).Cross d.Normalize =
      ((d.Cross up).Cross d).Mul (1 / a * (1 / b) * (1 / c) * (1 / a)) := by
    rw [hs, hfn, Vec3.cross_mul_left, Vec3.cross_mul_right, Vec3.mul_mul]
    congr 1
    ring
  -- extract the translation column equalities
  have e30 := congrArg Mat4.a30 hview
  have e31 := congrArg Mat4.a31 hview
  have e32 := congrArg Mat4.a32 hview
  rw [(lookAtV_last_col p (p.Add d) up).1,
    (lookAtV_last_col p' (p'.Add d) up).1,
    Vec3.add_sub_cancel, Vec3.add_sub_cancel] at e30
  rw [(lookAtV_last_col p (p.Add d) up).2.1,
    (lookAtV_last_col p' (p'.Add d) up).2.1,
    Vec3.add_sub_cancel, Vec3.add_sub_cancel] at e31
  rw [(lookAtV_last_col p (p.Add d) up).2.2,
    (lookAtV_last_col p' (p'.Add d) up).2.2,
    Vec3.add_sub_cancel, Vec3.add_sub_cancel] at e32
  -- turn them into dots with the position difference
  have hsx : (((d.Normalize).Cross up.Normalize).Normalize).Dot (p.Sub p') = 0 := by
    rw [Vec3.dot_sub]
    have := neg_injective e30
    linarith [this]
  have hux : ((((d.Normalize).Cross up.Normalize).Normalize).Cross
      d.Normalize).Dot (p.Sub p') = 0 := by
    rw [Vec3.dot_sub]
    have := neg_injective e31
    linarith [this]
  have hfx : (d.Normalize).Dot (p.Sub p') = 0 := by
    rw [Vec3.dot_sub]
    linarith [e32]
  -- strip the nonzero scalings
  have hKa : (1 : ℚ) / a ≠ 0 := one_div_ne_zero ha
  have hKb : (1 : ℚ) / b ≠ 0 := one_div_ne_zero hb
  have hKc : (1 : ℚ) / c ≠ 0 := one_div_ne_zero hw
  have hd0 : d.Dot (p.Sub p') = 0 := by
    rw [hfn, Vec3.dot_mul_left] at hfx
    rcases mul_eq_zero.mp hfx with h | h
    · exact absurd h hKa
    · exact h
  have hc0 : (d.Cross up).Dot (p.Sub p') = 0 := by
    rw [hs, Vec3.dot_mul_left] at hsx
    rcases mul_eq_zero.mp hsx with h | h
    · exact absurd h (mul_ne_zero (mul_ne_zero hKa hKb) hKc)
    · exact h
  have he0 : ((d.Cross up).Cross d).Dot (p.Sub p') = 0 := by
    rw [hu, Vec3.dot_mul_left] at hux
    rcases mul_eq_zero.mp hux with h | h
    · exact absurd h (mul_ne_zero (mul_ne_zero (mul_ne_zero hKa hKb) hKc) hKa)
    · exact h
  exact Vec3.eq_of_sub_eq_zero p p'
    (eq_zero_of_orth_basis d up (p.Sub p') hc hd0 hc0 he0)

/-- ratSqrt is exact at 1. -/
theorem ratSqrt_one : ratSqrt 1 = 1 := by norm_num [ratSqrt]

/-- ratSqrt is exact at 0. -/
theorem ratSqrt_zero : ratSqrt 0 = 0 := by norm_num [ratSqrt]

/-- C9 (amended): UpdateShadowMapData yields a view matrix whose look-at
target is position + direction; calling it twice with unchanged inputs
returns the identical light (idempotent, so View, ViewProjMatrix and
BiasedMatrix are the same both times); and changing only the position
yields a different view matrix provided the direction/up pair is
nondegenerate (nonzero normalization lengths and direction not parallel
to up) — with a degenerate pair (e.g. direction parallel to up) the
look-at basis collapses and distinct positions can yield the identical
view matrix. -/
theorem shadowView_target_idem_position :
    (∀ (l : Light) (m : ShadowMap), l.ShadowMap = some m →
      (l.UpdateShadowMapData).ShadowMap.map ShadowMap.View =
        some (LookAtV l.Position (l.Position.Add m.Direction) m.Up)) ∧
    (∀ l : Light, l.UpdateShadowMapData.UpdateShadowMapData =
      l.UpdateShadowMapData) ∧
    (∀ (l l' : Light) (m m' : ShadowMap),
      l.ShadowMap = some m → l'.ShadowMap = some m' →
      m'.Direction = m.Direction → m'.Up = m.Up →
      ratSqrt (m.Direction.Dot m.Direction) ≠ 0 →
      ratSqrt (m.Up.Dot m.Up) ≠ 0 →
      m.Direction.Cross m.Up ≠ Vec3.zero →
      ratSqrt (((m.Direction.Normalize).Cross m.Up.Normalize).Dot
        ((m.Direction.Normalize).Cross m.Up.Normalize)) ≠ 0 →
      l.Position ≠ l'.Position →
      (l.UpdateShadowMapData).ShadowMap.map ShadowMap.View ≠
        (l'.UpdateShadowMapData).ShadowMap.map ShadowMap.View) := by
  refine ⟨?_, ?_, ?_⟩
  · intro l m hm
    rw [updateShadowMapData_some l m hm]
    rfl
  · intro l
    rcases hm : l.ShadowMap with _ | m
    · rw [updateShadowMapData_none l hm, updateShadowMapData_none l hm]
    · rw [updateShadowMapData_some l m hm]
      rw [updateShadowMapData_some _ _ rfl]
  · intro l l' m m' hm hm' hdir hup ha hb hc hw hpos heq
    rw [updateShadowMapData_some l m hm, updateShadowMapData_some l' m' hm'] at heq
    simp only [Option.map_some] at heq
    rw [hdir, hup] at heq
    exact hpos (lookAt_position_injective l.Position l'.Position
      m.Direction m.Up ha hb hc hw (Option.some.inj heq))

/-- C9 counterexample: with the shadow direction parallel to the up
vector (both {0,1,0}, a unit direction), two lights at different
positions (origin and {1,0,0}) get the identical recomputed view
matrix, refuting "changing only P yields a different view matrix" as
universally stated. -/
theorem shadowView_degenerate_position_cex :
    (lightPosDir ⟨0, 0, 0⟩ ⟨0, 1, 0⟩ ⟨0, 1, 0⟩).Position ≠
      (lightPosDir ⟨1, 0, 0⟩ ⟨0, 1, 0⟩ ⟨0, 1, 0⟩).Position ∧
    ((lightPosDir ⟨0, 0, 0⟩ ⟨0, 1, 0⟩ ⟨0, 1, 0⟩).UpdateShadowMapData).ShadowMap.map
        ShadowMap.View =
      ((lightPosDir ⟨1, 0, 0⟩ ⟨0, 1, 0⟩ ⟨0, 1, 0⟩).UpdateShadowMapData).ShadowMap.map
        ShadowMap.View := by
  constructor
  · norm_num [lightPosDir, NewLight, Vec3.mk.injEq]
  · rw [updateShadowMapData_some _ _ rfl, updateShadowMapData_some _ _ rfl]
    simp only [Option.map_some, Option.some.injEq]
    norm_num [lightPosDir, NewLight, NewShadowMap, LookAtV, Vec3.Normalize,
      Vec3.Len, Vec3.Sub, Vec3.Add, Vec3.Dot, Vec3.Cross, Vec3.Mul, Vec3.zero,
      ratSqrt_one, ratSqrt_zero, Mat4.Mul4, Translate3D, Mat4.mk.injEq]

/-- C9 witness: a nondegenerate concrete direction {0,0,-1} with up
{0,1,0}: two positions give different views, and the view's look-at
target is position + direction. -/
theorem shadowView_target_idem_position_witness :
    ((lightPosDir ⟨0, 0, 0⟩ ⟨0, 0, -1⟩ ⟨0, 1, 0⟩).UpdateShadowMapData).ShadowMap.map
        ShadowMap.View ≠
      ((lightPosDir ⟨1, 0, 0⟩ ⟨0, 0, -1⟩ ⟨0, 1, 0⟩).UpdateShadowMapData).ShadowMap.map
        ShadowMap.View ∧
    ((lightPosDir ⟨2, 0, 0⟩ ⟨0, 0, -1⟩ ⟨0, 1, 0⟩).UpdateShadowMapData).ShadowMap.map
        ShadowMap.View =
      some (LookAtV ⟨2, 0, 0⟩ (Vec3.Add ⟨2, 0, 0⟩ ⟨0, 0, -1⟩) ⟨0, 1, 0⟩) := by
  constructor
  · exact shadowView_target_idem_position.2.2
      (lightPosDir ⟨0, 0, 0⟩ ⟨0, 0, -1⟩ ⟨0, 1, 0⟩)
      (lightPosDir ⟨1, 0, 0⟩ ⟨0, 0, -1⟩ ⟨0, 1, 0⟩)
      { NewShadowMap with Direction := ⟨0, 0, -1⟩, Up := ⟨0, 1, 0⟩ }
      { NewShadowMap with Direction := ⟨0, 0, -1⟩, Up := ⟨0, 1, 0⟩ }
      rfl rfl rfl rfl
      (by norm_num [NewShadowMap, Vec3.Dot, ratSqrt_one])
      (by norm_num [NewShadowMap, Vec3.Dot, ratSqrt_one])
      (by norm_num [NewShadowMap, Vec3.Cross, Vec3.zero, Vec3.mk.injEq])
      (by norm_num [NewShadowMap, Vec3.Normalize, Vec3.Len, Vec3.Dot,
        Vec3.Cross, Vec3.Mul, ratSqrt_one])
      (by norm_num [lightPosDir, NewLight, Vec3.mk.injEq])
  · exact shadowView_target_idem_position.1
      (lightPosDir ⟨2, 0, 0⟩ ⟨0, 0, -1⟩ ⟨0, 1, 0⟩)
      { NewShadowMap with Direction := ⟨0, 0, -1⟩, Up := ⟨0, 1, 0⟩ } rfl

end Fizzle
